import Mathlib

/-!
# google/fhir/primitive_handler.h

A shallow embedding of the FHIR primitive handler: the `JsonPrimitive` pair, the
version-agnostic `PrimitiveHandler` base class, the `CheckType` guard and the
`PrimitiveHandlerTemplate` class template that binds the four primitive kinds
(String, Boolean, Integer, Decimal) to the message classes of one FHIR version.

Protobuf messages are modelled by the descriptor they report, their dynamic C++ class
and the content of their `value` field.  Every generated class has exactly one
descriptor, which its objects report; an object of the reflection class
`DynamicMessage` reports the descriptor it was built for without being an object of
the class generated for it.  The type guard reads the descriptor, the downcast tests
the dynamic class.  C++ `std::string` is `String`, `bool` is `Bool`, and `int` is
`Int`: the handler only stores and returns integers, it performs no arithmetic on
them.
-/

namespace google.fhir

/-! ## Reflection metadata -/

/-- Modelled from the spec: the enum `proto::FhirVersion` is declared outside this
header.  It is "an enumerated tag identifying one released version of the
specification, immutable, compared by value"; the tag is the enum's number. -/
structure FhirVersion where
  tag : Nat
  deriving DecidableEq, Repr

/-- C++ type of the scalar field `value` of a primitive representation: the three
semantic value types the handler reads and writes (text, bit, signed integer). -/
inductive CppType where
  | CPPTYPE_STRING
  | CPPTYPE_BOOL
  | CPPTYPE_INT32
  deriving DecidableEq, Repr

/-- Modelled from the spec: `::google::protobuf::Descriptor`, the static type
descriptor of a message class.  It carries the fully qualified name, the short name,
the FHIR version its schema file is annotated with, and the field structure this
layer depends on: the C++ type of the field `value`, or `none` when the message has
no scalar field of that name (composite messages such as Extension). -/
structure Descriptor where
  full_name : String
  name : String
  fhir_version : FhirVersion
  value_type : Option CppType
  deriving DecidableEq, Repr

/-- Modelled from the spec: `GetFhirVersion` of util.h, absent from this header.
"Every concrete primitive type belongs to exactly one Schema Version, discoverable
from its runtime type descriptor". -/
def GetFhirVersion (descriptor : Descriptor) : FhirVersion :=
  descriptor.fhir_version

/-! ## Messages -/

/-- An object of a generated message class seen through its static type: the class
wraps the single field `value` of C++ type `α`, read by `value()` and written by
`set_value`. -/
structure Primitive (α : Type) where
  value : α
  deriving DecidableEq, Repr

/-- The generated setter `set_value`. -/
def Primitive.set_value {α : Type} (msg : Primitive α) (v : α) : Primitive α :=
  { msg with value := v }

/-- Default construction `new T()` of a class with a string field: the field holds
the empty string. -/
def Primitive.new_string : Primitive String := ⟨""⟩

/-- Default construction `new T()` of a class with a bool field: the field holds
false. -/
def Primitive.new_bool : Primitive Bool := ⟨false⟩

/-- Default construction `new T()` of a class with an int32 field: the field holds
zero. -/
def Primitive.new_int32 : Primitive Int := ⟨0⟩

/-- Content of a message as far as this layer can observe it. -/
inductive Payload where
  | string (obj : Primitive String)
  | bool (obj : Primitive Bool)
  | int32 (obj : Primitive Int)
  | composite
  deriving DecidableEq, Repr

/-- C++ type of the field `value` held by a payload. -/
def Payload.value_type : Payload → Option CppType
  | .string _ => some .CPPTYPE_STRING
  | .bool _ => some .CPPTYPE_BOOL
  | .int32 _ => some .CPPTYPE_INT32
  | .composite => none

/-- The dynamic C++ class of a message object, relative to the descriptor it reports:
the class generated for that descriptor, or `::google::protobuf::DynamicMessage`, whose
objects are built by reflection for any descriptor. -/
inductive DynamicClass where
  | generated
  | DynamicMessage
  deriving DecidableEq, Repr

/-- A concrete C++ message type: the class generated for a descriptor, or
`::google::protobuf::DynamicMessage`. -/
inductive ConcreteType where
  | generated (descriptor : Descriptor)
  | DynamicMessage
  deriving DecidableEq, Repr

/-- A runtime instance `::google::protobuf::Message`: the descriptor it reports, its
dynamic class, and its content, which has the field structure the descriptor
declares. -/
structure Message where
  descriptor : Descriptor
  dynamic_class : DynamicClass
  payload : Payload
  well_typed : payload.value_type = descriptor.value_type

/-- The reflection accessor `message.GetDescriptor()`. -/
def Message.GetDescriptor (message : Message) : Descriptor :=
  message.descriptor

/-- The concrete type of a message object, what `typeid` and `dynamic_cast` see. -/
def Message.concrete_type (message : Message) : ConcreteType :=
  match message.dynamic_class with
  | .generated => .generated message.descriptor
  | .DynamicMessage => .DynamicMessage

/-- A generated message class whose field `value` has C++ type `t`; the template can
only be instantiated with classes whose `value()` and `set_value` have the type the
kind needs. -/
structure MessageClass (t : CppType) where
  descriptor : Descriptor
  value_type_eq : descriptor.value_type = some t

/-- The static accessor `T::GetDescriptor()`. -/
def MessageClass.GetDescriptor {t : CppType} (T : MessageClass t) : Descriptor :=
  T.descriptor

/-- The generated class as a concrete type. -/
def MessageClass.concrete_type {t : CppType} (T : MessageClass t) : ConcreteType :=
  .generated T.descriptor

/-- Upcast of an owned object of a string-valued class to `Message*`. -/
def MessageClass.upcast_string (T : MessageClass .CPPTYPE_STRING) (msg : Primitive String) :
    Message :=
  ⟨T.descriptor, .generated, .string msg, T.value_type_eq.symm⟩

/-- Upcast of an owned object of a bool-valued class to `Message*`. -/
def MessageClass.upcast_bool (T : MessageClass .CPPTYPE_BOOL) (msg : Primitive Bool) :
    Message :=
  ⟨T.descriptor, .generated, .bool msg, T.value_type_eq.symm⟩

/-- Upcast of an owned object of an int32-valued class to `Message*`. -/
def MessageClass.upcast_int32 (T : MessageClass .CPPTYPE_INT32) (msg : Primitive Int) :
    Message :=
  ⟨T.descriptor, .generated, .int32 msg, T.value_type_eq.symm⟩

/-- The downcast `dynamic_cast<const T&>(primitive)` to a string-valued class: it
yields the object when the dynamic class of the message is `T`, whatever descriptor
the message reports, and `none` stands for the `std::bad_cast` a failed reference cast
throws. -/
def dynamic_cast_string (T : MessageClass .CPPTYPE_STRING) (primitive : Message) :
    Option (Primitive String) :=
  if primitive.concrete_type = T.concrete_type then
    match primitive.payload with
    | .string obj => some obj
    | _ => none
  else none

/-- The downcast `dynamic_cast<const T&>(primitive)` to a bool-valued class. -/
def dynamic_cast_bool (T : MessageClass .CPPTYPE_BOOL) (primitive : Message) :
    Option (Primitive Bool) :=
  if primitive.concrete_type = T.concrete_type then
    match primitive.payload with
    | .bool obj => some obj
    | _ => none
  else none

/-- The downcast `dynamic_cast<const T&>(primitive)` to an int32-valued class. -/
def dynamic_cast_int32 (T : MessageClass .CPPTYPE_INT32) (primitive : Message) :
    Option (Primitive Int) :=
  if primitive.concrete_type = T.concrete_type then
    match primitive.payload with
    | .int32 obj => some obj
    | _ => none
  else none

/-! ## Status and StatusOr -/

/-- Modelled from the spec: the status codes, declared outside this header.  `OK` and
`INVALID_ARGUMENT` are the two this header produces; the remaining ones name the
failures of the error taxonomy of the spec that are raised by code outside this
header. -/
inductive Code where
  | OK
  | INVALID_ARGUMENT
  | VERSION_MISMATCH
  | PARSE_ERROR
  | VALIDATION_ERROR
  | UNSUPPORTED_KIND
  deriving DecidableEq, Repr

/-- The result type `Status`: a code and, for failures, a message. -/
structure Status where
  code : Code
  error_message : String
  deriving DecidableEq, Repr

/-- The success value `Status::OK()`. -/
def Status.OK : Status := ⟨.OK, ""⟩

/-- The test `status.ok()`. -/
def Status.ok (s : Status) : Bool := decide (s.code = .OK)

/-- The error constructor `InvalidArgument(args...)`: an INVALID_ARGUMENT status whose
message is the concatenation of the arguments. -/
def InvalidArgument (args : List String) : Status :=
  ⟨.INVALID_ARGUMENT, String.join args⟩

/-- The result type `StatusOr<T>`: a value, or the status of a failure. -/
inductive StatusOr (α : Type) where
  | value (v : α)
  | status (s : Status)
  deriving DecidableEq, Repr

/-- What a call of a getter does: it returns its result, or it is left by the
`std::bad_cast` of a failed `dynamic_cast` to a reference. -/
inductive Outcome (α : Type) where
  | returns (r : α)
  | throws_bad_cast
  deriving DecidableEq, Repr

/-! ## JsonPrimitive -/

/-- The pair `JsonPrimitive`: the JSON text of a primitive and the owned `element`
(the pointer may be null). -/
structure JsonPrimitive where
  value : String
  element : Option Message

/-- The member `is_non_null`: `value != "null"`. -/
def JsonPrimitive.is_non_null (this : JsonPrimitive) : Bool :=
  this.value != "null"

/-! ## CheckType -/

/-- Modelled from the spec: `IsMessageType<Expected>(message)` of proto_util.h, absent
from this header.  "Type checking is by exact descriptor identity, not structural
compatibility": the test holds when the descriptor of the message is the descriptor
of `Expected`. -/
def IsMessageType (Expected : Descriptor) (message : Message) : Bool :=
  decide (message.GetDescriptor = Expected)

/-- The guard `primitives_internal::CheckType<Expected>(message)`. -/
def CheckType (Expected : Descriptor) (message : Message) : Status :=
  if IsMessageType Expected message then Status.OK
  else InvalidArgument ["Tried to get ", Expected.full_name,
    " value, but message was of type ", message.GetDescriptor.full_name]

/-! ## PrimitiveHandler -/

/-- Modelled from the spec: `absl::TimeZone`, a zone identified by its name. -/
structure TimeZone where
  name : String
  deriving DecidableEq, Repr

/-- Modelled from the spec: the external `primitives_internal::PrimitiveWrapper` of
primitive_wrapper.h, at its interface boundary (spec §6): `parse` yields the populated
target or fails, `wrap` yields the JSON text with the side artifact or fails,
`validate` succeeds or fails. -/
structure PrimitiveWrapper where
  parse : String → Option TimeZone → Message → StatusOr Message
  wrap : Message → StatusOr JsonPrimitive
  validate : Message → Status

/-- A use of the Primitive Wrapper component by a handler operation: the factory
lookup, or a call of one of the three wrapper operations. -/
inductive Delegation where
  | GetWrapper (target_descriptor : Descriptor)
  | parse
  | wrap
  | validate
  deriving DecidableEq, Repr

/-- The result of a handler operation together with the delegations it performed, in
order. -/
structure Traced (α : Type) where
  result : α
  delegations : List Delegation

/-- The abstract class `PrimitiveHandler`: the constant member `version_`, set by the
protected constructor `PrimitiveHandler(version)`, and the pure virtual factory
`GetWrapper` a concrete handler supplies. -/
structure PrimitiveHandler where
  version_ : FhirVersion
  GetWrapper : Descriptor → StatusOr PrimitiveWrapper

/-- Modelled from the spec: `CheckVersion(descriptor)` is declared here and defined in
the absent primitive_handler.cc.  "Success, or fails with VersionMismatch if the
runtime type (by descriptor identity) does not belong to this Handler's bound Schema
Version". -/
def PrimitiveHandler.CheckVersionOfDescriptor (this : PrimitiveHandler)
    (descriptor : Descriptor) : Status :=
  if GetFhirVersion descriptor = this.version_ then Status.OK
  else ⟨.VERSION_MISMATCH, ""⟩

/-- Modelled from the spec: `CheckVersion(message)` is declared here and defined in the
absent primitive_handler.cc; it checks the descriptor of the message. -/
def PrimitiveHandler.CheckVersion (this : PrimitiveHandler) (message : Message) : Status :=
  this.CheckVersionOfDescriptor message.GetDescriptor

/-- Modelled from the spec: `ParseInto` is declared here and defined in the absent
primitive_handler.cc.  The version check comes first; then the wrapper for the concrete
type of `target` is resolved and parses the JSON text into `target`.  The result is the
status and the target after the call; a failure leaves the target as it was.  The
overload without a time zone is the call with `tz` absent. -/
def PrimitiveHandler.ParseInto (this : PrimitiveHandler) (json : String)
    (tz : Option TimeZone) (target : Message) : Traced (Status × Message) :=
  let status := this.CheckVersion target
  if !status.ok then ⟨(status, target), []⟩
  else
    match this.GetWrapper target.GetDescriptor with
    | .status s => ⟨(s, target), [.GetWrapper target.GetDescriptor]⟩
    | .value wrapper =>
      match wrapper.parse json tz target with
      | .status s => ⟨(s, target), [.GetWrapper target.GetDescriptor, .parse]⟩
      | .value parsed => ⟨(Status.OK, parsed), [.GetWrapper target.GetDescriptor, .parse]⟩

/-- Modelled from the spec: `WrapPrimitiveProto` is declared here and defined in the
absent primitive_handler.cc.  The version check comes first; serialization and the
extraction of the side artifact are delegated to the resolved wrapper. -/
def PrimitiveHandler.WrapPrimitiveProto (this : PrimitiveHandler) (proto : Message) :
    Traced (StatusOr JsonPrimitive) :=
  let status := this.CheckVersion proto
  if !status.ok then ⟨.status status, []⟩
  else
    match this.GetWrapper proto.GetDescriptor with
    | .status s => ⟨.status s, [.GetWrapper proto.GetDescriptor]⟩
    | .value wrapper => ⟨wrapper.wrap proto, [.GetWrapper proto.GetDescriptor, .wrap]⟩

/-- Modelled from the spec: `ValidatePrimitive` is declared here and defined in the
absent primitive_handler.cc.  "This layer's only added contract is the version check
performed first"; rule checking is delegated to the resolved wrapper. -/
def PrimitiveHandler.ValidatePrimitive (this : PrimitiveHandler) (primitive : Message) :
    Traced Status :=
  let status := this.CheckVersion primitive
  if !status.ok then ⟨status, []⟩
  else
    match this.GetWrapper primitive.GetDescriptor with
    | .status s => ⟨s, [.GetWrapper primitive.GetDescriptor]⟩
    | .value wrapper =>
      ⟨wrapper.validate primitive, [.GetWrapper primitive.GetDescriptor, .validate]⟩

/-! ## PrimitiveHandlerTemplate -/

/-- The template arguments of `PrimitiveHandlerTemplate`: the Extension class of a
version and one representation class per kind.  String and Decimal wrap a string,
Boolean a bool, Integer an int.  The default arguments, which take the four classes
from the fields of the Extension class, are written out by whoever builds a binding. -/
structure Binding where
  ExtensionType : Descriptor
  StringType : MessageClass .CPPTYPE_STRING
  IntegerType : MessageClass .CPPTYPE_INT32
  DecimalType : MessageClass .CPPTYPE_STRING
  BooleanType : MessageClass .CPPTYPE_BOOL

/-- An object of the class `PrimitiveHandlerTemplate<ExtensionType, StringType,
IntegerType, DecimalType, BooleanType>`: its only state is that of the base class. -/
structure PrimitiveHandlerTemplate (B : Binding) extends PrimitiveHandler

namespace PrimitiveHandlerTemplate

/-- The protected constructor `PrimitiveHandlerTemplate()`: it takes no version and
initialises the base class with `GetFhirVersion(ExtensionType::descriptor())`.  The
factory `get_wrapper` stands for the override of the deriving class. -/
def new (B : Binding) (get_wrapper : Descriptor → StatusOr PrimitiveWrapper) :
    PrimitiveHandlerTemplate B :=
  { version_ := GetFhirVersion B.ExtensionType, GetWrapper := get_wrapper }

variable {B : Binding}

/-- The getter `GetStringValue`. -/
def GetStringValue (_this : PrimitiveHandlerTemplate B) (primitive : Message) :
    Outcome (StatusOr String) :=
  let status := CheckType B.StringType.descriptor primitive
  if !status.ok then .returns (.status status)
  else
    match dynamic_cast_string B.StringType primitive with
    | some msg => .returns (.value msg.value)
    | none => .throws_bad_cast

/-- The constructor `NewString`. -/
def NewString (_this : PrimitiveHandlerTemplate B) (str : String) : Message :=
  let msg := Primitive.new_string
  let msg := msg.set_value str
  B.StringType.upcast_string msg

/-- The accessor `StringDescriptor`. -/
def StringDescriptor (_this : PrimitiveHandlerTemplate B) : Descriptor :=
  B.StringType.GetDescriptor

/-- The getter `GetBooleanValue`. -/
def GetBooleanValue (_this : PrimitiveHandlerTemplate B) (primitive : Message) :
    Outcome (StatusOr Bool) :=
  let status := CheckType B.BooleanType.descriptor primitive
  if !status.ok then .returns (.status status)
  else
    match dynamic_cast_bool B.BooleanType primitive with
    | some msg => .returns (.value msg.value)
    | none => .throws_bad_cast

/-- The constructor `NewBoolean`. -/
def NewBoolean (_this : PrimitiveHandlerTemplate B) (value : Bool) : Message :=
  let msg := Primitive.new_bool
  let msg := msg.set_value value
  B.BooleanType.upcast_bool msg

/-- The accessor `BooleanDescriptor`. -/
def BooleanDescriptor (_this : PrimitiveHandlerTemplate B) : Descriptor :=
  B.BooleanType.GetDescriptor

/-- The getter `GetIntegerValue`. -/
def GetIntegerValue (_this : PrimitiveHandlerTemplate B) (primitive : Message) :
    Outcome (StatusOr Int) :=
  let status := CheckType B.IntegerType.descriptor primitive
  if !status.ok then .returns (.status status)
  else
    match dynamic_cast_int32 B.IntegerType primitive with
    | some msg => .returns (.value msg.value)
    | none => .throws_bad_cast

/-- The constructor `NewInteger`. -/
def NewInteger (_this : PrimitiveHandlerTemplate B) (value : Int) : Message :=
  let msg := Primitive.new_int32
  let msg := msg.set_value value
  B.IntegerType.upcast_int32 msg

/-- The accessor `IntegerDescriptor`. -/
def IntegerDescriptor (_this : PrimitiveHandlerTemplate B) : Descriptor :=
  B.IntegerType.GetDescriptor

/-- The getter `GetDecimalValue`. -/
def GetDecimalValue (_this : PrimitiveHandlerTemplate B) (primitive : Message) :
    Outcome (StatusOr String) :=
  let status := CheckType B.DecimalType.descriptor primitive
  if !status.ok then .returns (.status status)
  else
    match dynamic_cast_string B.DecimalType primitive with
    | some msg => .returns (.value msg.value)
    | none => .throws_bad_cast

/-- The constructor `NewDecimal`. -/
def NewDecimal (_this : PrimitiveHandlerTemplate B) (value : String) : Message :=
  let msg := Primitive.new_string
  let msg := msg.set_value value
  B.DecimalType.upcast_string msg

/-- The accessor `DecimalDescriptor`. -/
def DecimalDescriptor (_this : PrimitiveHandlerTemplate B) : Descriptor :=
  B.DecimalType.GetDescriptor

end PrimitiveHandlerTemplate

/-! ## Sample schema: two FHIR versions -/

namespace testdata

/-- Version tag of the STU3 release. -/
def STU3 : FhirVersion := ⟨2⟩

/-- Version tag of the R4 release. -/
def R4 : FhirVersion := ⟨3⟩

/-- Descriptor of the STU3 Extension message. -/
def stu3_Extension : Descriptor :=
  ⟨"google.fhir.stu3.proto.Extension", "Extension", STU3, none⟩

/-- The STU3 class String. -/
def stu3_String : MessageClass .CPPTYPE_STRING :=
  ⟨⟨"google.fhir.stu3.proto.String", "String", STU3, some .CPPTYPE_STRING⟩, rfl⟩

/-- The STU3 class Integer. -/
def stu3_Integer : MessageClass .CPPTYPE_INT32 :=
  ⟨⟨"google.fhir.stu3.proto.Integer", "Integer", STU3, some .CPPTYPE_INT32⟩, rfl⟩

/-- The STU3 class Decimal. -/
def stu3_Decimal : MessageClass .CPPTYPE_STRING :=
  ⟨⟨"google.fhir.stu3.proto.Decimal", "Decimal", STU3, some .CPPTYPE_STRING⟩, rfl⟩

/-- The STU3 class Boolean. -/
def stu3_Boolean : MessageClass .CPPTYPE_BOOL :=
  ⟨⟨"google.fhir.stu3.proto.Boolean", "Boolean", STU3, some .CPPTYPE_BOOL⟩, rfl⟩

/-- Descriptor of the R4 Extension message. -/
def r4_Extension : Descriptor :=
  ⟨"google.fhir.r4.core.Extension", "Extension", R4, none⟩

/-- The R4 class String. -/
def r4_String : MessageClass .CPPTYPE_STRING :=
  ⟨⟨"google.fhir.r4.core.String", "String", R4, some .CPPTYPE_STRING⟩, rfl⟩

/-- The R4 class Integer. -/
def r4_Integer : MessageClass .CPPTYPE_INT32 :=
  ⟨⟨"google.fhir.r4.core.Integer", "Integer", R4, some .CPPTYPE_INT32⟩, rfl⟩

/-- The R4 class Decimal. -/
def r4_Decimal : MessageClass .CPPTYPE_STRING :=
  ⟨⟨"google.fhir.r4.core.Decimal", "Decimal", R4, some .CPPTYPE_STRING⟩, rfl⟩

/-- The R4 class Boolean. -/
def r4_Boolean : MessageClass .CPPTYPE_BOOL :=
  ⟨⟨"google.fhir.r4.core.Boolean", "Boolean", R4, some .CPPTYPE_BOOL⟩, rfl⟩

/-- Template arguments of the STU3 handler: every class is an STU3 class. -/
def Stu3Binding : Binding :=
  ⟨stu3_Extension, stu3_String, stu3_Integer, stu3_Decimal, stu3_Boolean⟩

/-- Template arguments of the R4 handler: every class is an R4 class. -/
def R4Binding : Binding :=
  ⟨r4_Extension, r4_String, r4_Integer, r4_Decimal, r4_Boolean⟩

/-- Template arguments that name the R4 Extension and, explicitly, the STU3 class
String: `PrimitiveHandlerTemplate<r4::Extension, stu3::String>`. -/
def MixedBinding : Binding :=
  ⟨r4_Extension, stu3_String, r4_Integer, r4_Decimal, r4_Boolean⟩

/-- A wrapper that accepts everything: parsing leaves the target as it is, wrapping
yields the text "null" without an element, validation succeeds. -/
def lenient_wrapper : PrimitiveWrapper :=
  ⟨fun _ _ target => .value target, fun _ => .value ⟨"null", none⟩, fun _ => Status.OK⟩

/-- A factory that resolves the lenient wrapper for every type. -/
def get_wrapper (_target_descriptor : Descriptor) : StatusOr PrimitiveWrapper :=
  .value lenient_wrapper

/-- The STU3 handler. -/
def stu3_handler : PrimitiveHandlerTemplate Stu3Binding :=
  PrimitiveHandlerTemplate.new Stu3Binding get_wrapper

/-- The R4 handler. -/
def r4_handler : PrimitiveHandlerTemplate R4Binding :=
  PrimitiveHandlerTemplate.new R4Binding get_wrapper

/-- The handler of the mixed binding. -/
def mixed_handler : PrimitiveHandlerTemplate MixedBinding :=
  PrimitiveHandlerTemplate.new MixedBinding get_wrapper

/-- An STU3 Integer instance holding 42, built by the STU3 handler. -/
def stu3_integer_42 : Message :=
  stu3_handler.NewInteger 42

/-- A `DynamicMessage` built by reflection for the descriptor of the R4 class String,
its field `value` set to "abc". -/
def r4_dynamic_string : Message :=
  ⟨r4_String.descriptor, .DynamicMessage, .string ⟨"abc"⟩, rfl⟩

end testdata

/-! ## Basic facts about the guard and the downcasts -/

theorem InvalidArgument_ok (args : List String) : (InvalidArgument args).ok = false := by
  simp [InvalidArgument, Status.ok]

theorem CheckType_of_eq {Expected : Descriptor} {message : Message}
    (h : message.GetDescriptor = Expected) : CheckType Expected message = Status.OK := by
  simp [CheckType, IsMessageType, h]

theorem CheckType_of_ne {Expected : Descriptor} {message : Message}
    (h : message.GetDescriptor ≠ Expected) :
    CheckType Expected message = InvalidArgument ["Tried to get ", Expected.full_name,
      " value, but message was of type ", message.GetDescriptor.full_name] := by
  simp [CheckType, IsMessageType, h]

theorem Message.concrete_type_eq_generated {m : Message} {d : Descriptor} :
    m.concrete_type = .generated d ↔ m.dynamic_class = .generated ∧ m.GetDescriptor = d := by
  obtain ⟨md, c, p, wt⟩ := m
  cases c <;> simp [Message.concrete_type, Message.GetDescriptor]

theorem dynamic_cast_string_of_ne_class {T : MessageClass .CPPTYPE_STRING} {m : Message}
    (h : m.concrete_type ≠ T.concrete_type) : dynamic_cast_string T m = none := by
  simp [dynamic_cast_string, h]

theorem dynamic_cast_string_of_eq {T : MessageClass .CPPTYPE_STRING} {m : Message}
    (h : m.concrete_type = T.concrete_type) :
    ∃ obj, m.payload = .string obj ∧ dynamic_cast_string T m = some obj := by
  have hd := (Message.concrete_type_eq_generated.mp h).2
  obtain ⟨d, c, p, wt⟩ := m
  simp only [Message.GetDescriptor] at hd
  subst hd
  have hv := T.value_type_eq
  rw [hv] at wt
  cases p <;> simp_all [Payload.value_type, dynamic_cast_string]

theorem dynamic_cast_bool_of_ne_class {T : MessageClass .CPPTYPE_BOOL} {m : Message}
    (h : m.concrete_type ≠ T.concrete_type) : dynamic_cast_bool T m = none := by
  simp [dynamic_cast_bool, h]

theorem dynamic_cast_bool_of_eq {T : MessageClass .CPPTYPE_BOOL} {m : Message}
    (h : m.concrete_type = T.concrete_type) :
    ∃ obj, m.payload = .bool obj ∧ dynamic_cast_bool T m = some obj := by
  have hd := (Message.concrete_type_eq_generated.mp h).2
  obtain ⟨d, c, p, wt⟩ := m
  simp only [Message.GetDescriptor] at hd
  subst hd
  have hv := T.value_type_eq
  rw [hv] at wt
  cases p <;> simp_all [Payload.value_type, dynamic_cast_bool]

theorem dynamic_cast_int32_of_ne_class {T : MessageClass .CPPTYPE_INT32} {m : Message}
    (h : m.concrete_type ≠ T.concrete_type) : dynamic_cast_int32 T m = none := by
  simp [dynamic_cast_int32, h]

theorem dynamic_cast_int32_of_eq {T : MessageClass .CPPTYPE_INT32} {m : Message}
    (h : m.concrete_type = T.concrete_type) :
    ∃ obj, m.payload = .int32 obj ∧ dynamic_cast_int32 T m = some obj := by
  have hd := (Message.concrete_type_eq_generated.mp h).2
  obtain ⟨d, c, p, wt⟩ := m
  simp only [Message.GetDescriptor] at hd
  subst hd
  have hv := T.value_type_eq
  rw [hv] at wt
  cases p <;> simp_all [Payload.value_type, dynamic_cast_int32]

theorem InvalidArgument_message (a b c d : String) :
    InvalidArgument [a, b, c, d] = ⟨.INVALID_ARGUMENT, a ++ b ++ c ++ d⟩ := by
  simp [InvalidArgument, String.join, String.append_assoc]

/-! ## The getters, case by case -/

namespace PrimitiveHandlerTemplate

variable {B : Binding}

theorem GetStringValue_of_ne (h : PrimitiveHandlerTemplate B) {i : Message}
    (hne : i.GetDescriptor ≠ B.StringType.descriptor) :
    h.GetStringValue i = .returns (.status (InvalidArgument ["Tried to get ",
      B.StringType.descriptor.full_name, " value, but message was of type ",
      i.GetDescriptor.full_name])) := by
  simp [GetStringValue, CheckType_of_ne hne, InvalidArgument_ok]

theorem GetBooleanValue_of_ne (h : PrimitiveHandlerTemplate B) {i : Message}
    (hne : i.GetDescriptor ≠ B.BooleanType.descriptor) :
    h.GetBooleanValue i = .returns (.status (InvalidArgument ["Tried to get ",
      B.BooleanType.descriptor.full_name, " value, but message was of type ",
      i.GetDescriptor.full_name])) := by
  simp [GetBooleanValue, CheckType_of_ne hne, InvalidArgument_ok]

theorem GetIntegerValue_of_ne (h : PrimitiveHandlerTemplate B) {i : Message}
    (hne : i.GetDescriptor ≠ B.IntegerType.descriptor) :
    h.GetIntegerValue i = .returns (.status (InvalidArgument ["Tried to get ",
      B.IntegerType.descriptor.full_name, " value, but message was of type ",
      i.GetDescriptor.full_name])) := by
  simp [GetIntegerValue, CheckType_of_ne hne, InvalidArgument_ok]

theorem GetDecimalValue_of_ne (h : PrimitiveHandlerTemplate B) {i : Message}
    (hne : i.GetDescriptor ≠ B.DecimalType.descriptor) :
    h.GetDecimalValue i = .returns (.status (InvalidArgument ["Tried to get ",
      B.DecimalType.descriptor.full_name, " value, but message was of type ",
      i.GetDescriptor.full_name])) := by
  simp [GetDecimalValue, CheckType_of_ne hne, InvalidArgument_ok]

theorem GetStringValue_of_eq (h : PrimitiveHandlerTemplate B) {i : Message}
    (heq : i.concrete_type = B.StringType.concrete_type) :
    ∃ obj, i.payload = .string obj ∧ h.GetStringValue i = .returns (.value obj.value) := by
  obtain ⟨obj, hp, hc⟩ := dynamic_cast_string_of_eq heq
  have hd := (Message.concrete_type_eq_generated.mp heq).2
  exact ⟨obj, hp, by simp [GetStringValue, CheckType_of_eq hd, Status.ok, Status.OK, hc]⟩

theorem GetStringValue_of_ne_class (h : PrimitiveHandlerTemplate B) {i : Message}
    (hne : i.concrete_type ≠ B.StringType.concrete_type) (v : String) :
    h.GetStringValue i ≠ .returns (.value v) := by
  have hc := dynamic_cast_string_of_ne_class hne
  simp only [GetStringValue, hc]
  split <;> simp

theorem GetStringValue_of_foreign_class (h : PrimitiveHandlerTemplate B) {i : Message}
    (hd : i.GetDescriptor = B.StringType.descriptor)
    (hne : i.concrete_type ≠ B.StringType.concrete_type) :
    h.GetStringValue i = .throws_bad_cast := by
  simp [GetStringValue, CheckType_of_eq hd, Status.ok, Status.OK,
    dynamic_cast_string_of_ne_class hne]

theorem GetBooleanValue_of_eq (h : PrimitiveHandlerTemplate B) {i : Message}
    (heq : i.concrete_type = B.BooleanType.concrete_type) :
    ∃ obj, i.payload = .bool obj ∧ h.GetBooleanValue i = .returns (.value obj.value) := by
  obtain ⟨obj, hp, hc⟩ := dynamic_cast_bool_of_eq heq
  have hd := (Message.concrete_type_eq_generated.mp heq).2
  exact ⟨obj, hp, by simp [GetBooleanValue, CheckType_of_eq hd, Status.ok, Status.OK, hc]⟩

theorem GetBooleanValue_of_ne_class (h : PrimitiveHandlerTemplate B) {i : Message}
    (hne : i.concrete_type ≠ B.BooleanType.concrete_type) (v : Bool) :
    h.GetBooleanValue i ≠ .returns (.value v) := by
  have hc := dynamic_cast_bool_of_ne_class hne
  simp only [GetBooleanValue, hc]
  split <;> simp

theorem GetBooleanValue_of_foreign_class (h : PrimitiveHandlerTemplate B) {i : Message}
    (hd : i.GetDescriptor = B.BooleanType.descriptor)
    (hne : i.concrete_type ≠ B.BooleanType.concrete_type) :
    h.GetBooleanValue i = .throws_bad_cast := by
  simp [GetBooleanValue, CheckType_of_eq hd, Status.ok, Status.OK,
    dynamic_cast_bool_of_ne_class hne]

theorem GetIntegerValue_of_eq (h : PrimitiveHandlerTemplate B) {i : Message}
    (heq : i.concrete_type = B.IntegerType.concrete_type) :
    ∃ obj, i.payload = .int32 obj ∧ h.GetIntegerValue i = .returns (.value obj.value) := by
  obtain ⟨obj, hp, hc⟩ := dynamic_cast_int32_of_eq heq
  have hd := (Message.concrete_type_eq_generated.mp heq).2
  exact ⟨obj, hp, by simp [GetIntegerValue, CheckType_of_eq hd, Status.ok, Status.OK, hc]⟩

theorem GetIntegerValue_of_ne_class (h : PrimitiveHandlerTemplate B) {i : Message}
    (hne : i.concrete_type ≠ B.IntegerType.concrete_type) (v : Int) :
    h.GetIntegerValue i ≠ .returns (.value v) := by
  have hc := dynamic_cast_int32_of_ne_class hne
  simp only [GetIntegerValue, hc]
  split <;> simp

theorem GetIntegerValue_of_foreign_class (h : PrimitiveHandlerTemplate B) {i : Message}
    (hd : i.GetDescriptor = B.IntegerType.descriptor)
    (hne : i.concrete_type ≠ B.IntegerType.concrete_type) :
    h.GetIntegerValue i = .throws_bad_cast := by
  simp [GetIntegerValue, CheckType_of_eq hd, Status.ok, Status.OK,
    dynamic_cast_int32_of_ne_class hne]

theorem GetDecimalValue_of_eq (h : PrimitiveHandlerTemplate B) {i : Message}
    (heq : i.concrete_type = B.DecimalType.concrete_type) :
    ∃ obj, i.payload = .string obj ∧ h.GetDecimalValue i = .returns (.value obj.value) := by
  obtain ⟨obj, hp, hc⟩ := dynamic_cast_string_of_eq heq
  have hd := (Message.concrete_type_eq_generated.mp heq).2
  exact ⟨obj, hp, by simp [GetDecimalValue, CheckType_of_eq hd, Status.ok, Status.OK, hc]⟩

theorem GetDecimalValue_of_ne_class (h : PrimitiveHandlerTemplate B) {i : Message}
    (hne : i.concrete_type ≠ B.DecimalType.concrete_type) (v : String) :
    h.GetDecimalValue i ≠ .returns (.value v) := by
  have hc := dynamic_cast_string_of_ne_class hne
  simp only [GetDecimalValue, hc]
  split <;> simp

theorem GetDecimalValue_of_foreign_class (h : PrimitiveHandlerTemplate B) {i : Message}
    (hd : i.GetDescriptor = B.DecimalType.descriptor)
    (hne : i.concrete_type ≠ B.DecimalType.concrete_type) :
    h.GetDecimalValue i = .throws_bad_cast := by
  simp [GetDecimalValue, CheckType_of_eq hd, Status.ok, Status.OK,
    dynamic_cast_string_of_ne_class hne]

/-! ## Construction and extraction -/

/-- C1: for every binding and every value v, each getter applied to the instance the
matching constructor built from v returns v: strings, booleans, integers, and decimal
texts of any shape. -/
theorem new_then_get_roundtrip (h : PrimitiveHandlerTemplate B) :
    (∀ v : String, h.GetStringValue (h.NewString v) = .returns (.value v)) ∧
    (∀ v : Bool, h.GetBooleanValue (h.NewBoolean v) = .returns (.value v)) ∧
    (∀ v : Int, h.GetIntegerValue (h.NewInteger v) = .returns (.value v)) ∧
    (∀ v : String, h.GetDecimalValue (h.NewDecimal v) = .returns (.value v)) := by
  refine ⟨fun v => ?_, fun v => ?_, fun v => ?_, fun v => ?_⟩
  · obtain ⟨obj, hp, hg⟩ := h.GetStringValue_of_eq (i := h.NewString v) rfl
    simp only [NewString, MessageClass.upcast_string, Primitive.set_value,
      Payload.string.injEq] at hp
    rw [hg, ← hp]
  · obtain ⟨obj, hp, hg⟩ := h.GetBooleanValue_of_eq (i := h.NewBoolean v) rfl
    simp only [NewBoolean, MessageClass.upcast_bool, Primitive.set_value,
      Payload.bool.injEq] at hp
    rw [hg, ← hp]
  · obtain ⟨obj, hp, hg⟩ := h.GetIntegerValue_of_eq (i := h.NewInteger v) rfl
    simp only [NewInteger, MessageClass.upcast_int32, Primitive.set_value,
      Payload.int32.injEq] at hp
    rw [hg, ← hp]
  · obtain ⟨obj, hp, hg⟩ := h.GetDecimalValue_of_eq (i := h.NewDecimal v) rfl
    simp only [NewDecimal, MessageClass.upcast_string, Primitive.set_value,
      Payload.string.injEq] at hp
    rw [hg, ← hp]

/-- C10: a getter applied to a freshly default-constructed instance of the kind's
representation succeeds with the field default (empty text, false, zero), which is also
what it returns on the instance the constructor builds from that default. -/
theorem getter_on_fresh_instance (h : PrimitiveHandlerTemplate B) :
    (h.GetStringValue (B.StringType.upcast_string Primitive.new_string) = .returns (.value "") ∧
      h.GetStringValue (B.StringType.upcast_string Primitive.new_string) =
        h.GetStringValue (h.NewString "")) ∧
    (h.GetDecimalValue (B.DecimalType.upcast_string Primitive.new_string) = .returns (.value "") ∧
      h.GetDecimalValue (B.DecimalType.upcast_string Primitive.new_string) =
        h.GetDecimalValue (h.NewDecimal "")) ∧
    (h.GetBooleanValue (B.BooleanType.upcast_bool Primitive.new_bool) = .returns (.value false) ∧
      h.GetBooleanValue (B.BooleanType.upcast_bool Primitive.new_bool) =
        h.GetBooleanValue (h.NewBoolean false)) ∧
    (h.GetIntegerValue (B.IntegerType.upcast_int32 Primitive.new_int32) = .returns (.value 0) ∧
      h.GetIntegerValue (B.IntegerType.upcast_int32 Primitive.new_int32) =
        h.GetIntegerValue (h.NewInteger 0)) := by
  refine ⟨⟨?_, rfl⟩, ⟨?_, rfl⟩, ⟨?_, rfl⟩, ⟨?_, rfl⟩⟩
  · obtain ⟨obj, hp, hg⟩ :=
      h.GetStringValue_of_eq (i := B.StringType.upcast_string Primitive.new_string) rfl
    simp only [MessageClass.upcast_string, Payload.string.injEq] at hp
    rw [hg, ← hp]; rfl
  · obtain ⟨obj, hp, hg⟩ :=
      h.GetDecimalValue_of_eq (i := B.DecimalType.upcast_string Primitive.new_string) rfl
    simp only [MessageClass.upcast_string, Payload.string.injEq] at hp
    rw [hg, ← hp]; rfl
  · obtain ⟨obj, hp, hg⟩ :=
      h.GetBooleanValue_of_eq (i := B.BooleanType.upcast_bool Primitive.new_bool) rfl
    simp only [MessageClass.upcast_bool, Payload.bool.injEq] at hp
    rw [hg, ← hp]; rfl
  · obtain ⟨obj, hp, hg⟩ :=
      h.GetIntegerValue_of_eq (i := B.IntegerType.upcast_int32 Primitive.new_int32) rfl
    simp only [MessageClass.upcast_int32, Payload.int32.injEq] at hp
    rw [hg, ← hp]; rfl

/-- C8: the version of a handler built by the template constructor is the version of the
descriptor of its Extension class; the constructor takes no version, so handlers of the
same binding carry the same version whatever else they are built from, and bindings
with the same Extension class give the same version. -/
theorem version_derived_from_extension (B : Binding)
    (g g2 : Descriptor → StatusOr PrimitiveWrapper) :
    (PrimitiveHandlerTemplate.new B g).version_ = GetFhirVersion B.ExtensionType ∧
    (PrimitiveHandlerTemplate.new B g).version_ = (PrimitiveHandlerTemplate.new B g2).version_ ∧
    (∀ B2 : Binding, B2.ExtensionType = B.ExtensionType →
      (PrimitiveHandlerTemplate.new B2 g2).version_ = (PrimitiveHandlerTemplate.new B g).version_) :=
  ⟨rfl, rfl, fun _ he => by simp [PrimitiveHandlerTemplate.new, he]⟩

/-- C8, at a concrete input: the mixed binding shares its Extension class with the R4
binding, so its handler carries the R4 version tag. -/
theorem version_derived_from_extension_witness :
    testdata.MixedBinding.ExtensionType = testdata.R4Binding.ExtensionType ∧
    (PrimitiveHandlerTemplate.new testdata.MixedBinding testdata.get_wrapper).version_ =
      (PrimitiveHandlerTemplate.new testdata.R4Binding testdata.get_wrapper).version_ :=
  ⟨rfl, (version_derived_from_extension testdata.R4Binding testdata.get_wrapper
    testdata.get_wrapper).2.2 testdata.MixedBinding rfl⟩

/-- C4: type checking is by type identity.  Whenever the representation classes of a
kind in two bindings are distinct types, the getter of the first handler rejects every
instance the second handler constructs for that kind with the INVALID_ARGUMENT status of
the guard, although the two classes have the same field structure. -/
theorem foreign_instance_rejected {B2 : Binding} (h : PrimitiveHandlerTemplate B)
    (h2 : PrimitiveHandlerTemplate B2) :
    (h.StringDescriptor ≠ h2.StringDescriptor →
      h.StringDescriptor.value_type = h2.StringDescriptor.value_type ∧
      ∀ v : String, ∃ s, h.GetStringValue (h2.NewString v) = .returns (.status s) ∧
        s.code = .INVALID_ARGUMENT) ∧
    (h.BooleanDescriptor ≠ h2.BooleanDescriptor →
      h.BooleanDescriptor.value_type = h2.BooleanDescriptor.value_type ∧
      ∀ v : Bool, ∃ s, h.GetBooleanValue (h2.NewBoolean v) = .returns (.status s) ∧
        s.code = .INVALID_ARGUMENT) ∧
    (h.IntegerDescriptor ≠ h2.IntegerDescriptor →
      h.IntegerDescriptor.value_type = h2.IntegerDescriptor.value_type ∧
      ∀ v : Int, ∃ s, h.GetIntegerValue (h2.NewInteger v) = .returns (.status s) ∧
        s.code = .INVALID_ARGUMENT) ∧
    (h.DecimalDescriptor ≠ h2.DecimalDescriptor →
      h.DecimalDescriptor.value_type = h2.DecimalDescriptor.value_type ∧
      ∀ v : String, ∃ s, h.GetDecimalValue (h2.NewDecimal v) = .returns (.status s) ∧
        s.code = .INVALID_ARGUMENT) := by
  refine ⟨fun hne => ⟨?_, fun v => ?_⟩, fun hne => ⟨?_, fun v => ?_⟩,
    fun hne => ⟨?_, fun v => ?_⟩, fun hne => ⟨?_, fun v => ?_⟩⟩
  · exact B.StringType.value_type_eq.trans B2.StringType.value_type_eq.symm
  · exact ⟨_, h.GetStringValue_of_ne (i := h2.NewString v) (Ne.symm hne), rfl⟩
  · exact B.BooleanType.value_type_eq.trans B2.BooleanType.value_type_eq.symm
  · exact ⟨_, h.GetBooleanValue_of_ne (i := h2.NewBoolean v) (Ne.symm hne), rfl⟩
  · exact B.IntegerType.value_type_eq.trans B2.IntegerType.value_type_eq.symm
  · exact ⟨_, h.GetIntegerValue_of_ne (i := h2.NewInteger v) (Ne.symm hne), rfl⟩
  · exact B.DecimalType.value_type_eq.trans B2.DecimalType.value_type_eq.symm
  · exact ⟨_, h.GetDecimalValue_of_ne (i := h2.NewDecimal v) (Ne.symm hne), rfl⟩

/-- C4, at a concrete input: the R4 and STU3 classes String are distinct types of
different versions with the short name "String" and the same field structure, and the
R4 handler rejects the STU3 instance; likewise for the other three kinds. -/
theorem foreign_instance_rejected_witness :
    (testdata.r4_handler.StringDescriptor.name = "String" ∧
      testdata.stu3_handler.StringDescriptor.name = "String" ∧
      testdata.r4_handler.version_ ≠ testdata.stu3_handler.version_) ∧
    (testdata.r4_handler.StringDescriptor.value_type =
        testdata.stu3_handler.StringDescriptor.value_type ∧
      ∃ s, testdata.r4_handler.GetStringValue (testdata.stu3_handler.NewString "abc") =
        .returns (.status s) ∧ s.code = .INVALID_ARGUMENT) ∧
    (∃ s, testdata.r4_handler.GetBooleanValue (testdata.stu3_handler.NewBoolean true) =
        .returns (.status s) ∧ s.code = .INVALID_ARGUMENT) ∧
    (∃ s, testdata.r4_handler.GetIntegerValue (testdata.stu3_handler.NewInteger 7) =
        .returns (.status s) ∧ s.code = .INVALID_ARGUMENT) ∧
    (∃ s, testdata.r4_handler.GetDecimalValue (testdata.stu3_handler.NewDecimal "1.50") =
        .returns (.status s) ∧ s.code = .INVALID_ARGUMENT) :=
  ⟨⟨rfl, rfl, by decide⟩,
   ⟨((foreign_instance_rejected testdata.r4_handler testdata.stu3_handler).1 (by decide)).1,
    ((foreign_instance_rejected testdata.r4_handler testdata.stu3_handler).1 (by decide)).2 "abc"⟩,
   ((foreign_instance_rejected testdata.r4_handler testdata.stu3_handler).2.1 (by decide)).2 true,
   ((foreign_instance_rejected testdata.r4_handler testdata.stu3_handler).2.2.1 (by decide)).2 7,
   ((foreign_instance_rejected testdata.r4_handler testdata.stu3_handler).2.2.2
      (by decide)).2 "1.50"⟩

/-- C7: the instance built from the integer 42 yields 42 from the integer getter, and
the string getter rejects it with a message that names the full name of the String
representation as expected and that of the Integer representation as actual.  For
every instance of another type than the expected one, the text of the guard is
"Tried to get ", the expected full name, " value, but message was of type ", the full
name of the type of the instance. -/
theorem integer_scenario (h : PrimitiveHandlerTemplate B) :
    h.GetIntegerValue (h.NewInteger 42) = .returns (.value 42) ∧
    h.GetStringValue (h.NewInteger 42) = .returns (.status ⟨.INVALID_ARGUMENT,
      "Tried to get " ++ h.StringDescriptor.full_name ++
        " value, but message was of type " ++ h.IntegerDescriptor.full_name⟩) ∧
    (∀ (Expected : Descriptor) (i : Message), i.GetDescriptor ≠ Expected →
      CheckType Expected i = ⟨.INVALID_ARGUMENT,
        "Tried to get " ++ Expected.full_name ++
          " value, but message was of type " ++ i.GetDescriptor.full_name⟩) := by
  refine ⟨?_, ?_, fun Expected i hne => ?_⟩
  · obtain ⟨obj, hp, hg⟩ := h.GetIntegerValue_of_eq (i := h.NewInteger 42) rfl
    simp only [NewInteger, MessageClass.upcast_int32, Primitive.set_value,
      Payload.int32.injEq] at hp
    rw [hg, ← hp]
  · have hne : (h.NewInteger 42).GetDescriptor ≠ B.StringType.descriptor := by
      intro he
      have h1 := congrArg Descriptor.value_type he
      simp only [NewInteger, MessageClass.upcast_int32, Message.GetDescriptor] at h1
      rw [B.IntegerType.value_type_eq, B.StringType.value_type_eq] at h1
      exact absurd h1 (by decide)
    rw [h.GetStringValue_of_ne hne, InvalidArgument_message]
    rfl
  · rw [CheckType_of_ne hne, InvalidArgument_message]

/-- C7, at a concrete input: the guard for the R4 class String applied to the STU3
Integer instance holding 42 produces the message with both full names. -/
theorem integer_scenario_witness :
    testdata.stu3_integer_42.GetDescriptor ≠ testdata.r4_String.descriptor ∧
    CheckType testdata.r4_String.descriptor testdata.stu3_integer_42 = ⟨.INVALID_ARGUMENT,
      "Tried to get " ++ testdata.r4_String.descriptor.full_name ++
        " value, but message was of type " ++ testdata.stu3_integer_42.GetDescriptor.full_name⟩ :=
  ⟨by decide, (integer_scenario testdata.r4_handler).2.2 testdata.r4_String.descriptor
    testdata.stu3_integer_42 (by decide)⟩

/-- C9: for each kind and every instance, the getter returns a value exactly when the
concrete type of the instance is the representation class of the kind, the class
generated for the descriptor the descriptor accessor of the kind returns; it returns the
value v exactly when, in addition, the value field of the instance holds v; and a
handler of the same binding with any other bound version returns the same. -/
theorem getter_success_iff (h : PrimitiveHandlerTemplate B) (i : Message) :
    (((∃ v, h.GetStringValue i = .returns (.value v)) ↔
        i.concrete_type = .generated h.StringDescriptor) ∧
      (∀ v, h.GetStringValue i = .returns (.value v) ↔
        i.concrete_type = .generated h.StringDescriptor ∧ i.payload = .string ⟨v⟩) ∧
      (∀ h2 : PrimitiveHandlerTemplate B, h2.GetStringValue i = h.GetStringValue i)) ∧
    (((∃ v, h.GetBooleanValue i = .returns (.value v)) ↔
        i.concrete_type = .generated h.BooleanDescriptor) ∧
      (∀ v, h.GetBooleanValue i = .returns (.value v) ↔
        i.concrete_type = .generated h.BooleanDescriptor ∧ i.payload = .bool ⟨v⟩) ∧
      (∀ h2 : PrimitiveHandlerTemplate B, h2.GetBooleanValue i = h.GetBooleanValue i)) ∧
    (((∃ v, h.GetIntegerValue i = .returns (.value v)) ↔
        i.concrete_type = .generated h.IntegerDescriptor) ∧
      (∀ v, h.GetIntegerValue i = .returns (.value v) ↔
        i.concrete_type = .generated h.IntegerDescriptor ∧ i.payload = .int32 ⟨v⟩) ∧
      (∀ h2 : PrimitiveHandlerTemplate B, h2.GetIntegerValue i = h.GetIntegerValue i)) ∧
    (((∃ v, h.GetDecimalValue i = .returns (.value v)) ↔
        i.concrete_type = .generated h.DecimalDescriptor) ∧
      (∀ v, h.GetDecimalValue i = .returns (.value v) ↔
        i.concrete_type = .generated h.DecimalDescriptor ∧ i.payload = .string ⟨v⟩) ∧
      (∀ h2 : PrimitiveHandlerTemplate B, h2.GetDecimalValue i = h.GetDecimalValue i)) := by
  refine ⟨⟨?_, fun v => ?_, fun _ => rfl⟩, ⟨?_, fun v => ?_, fun _ => rfl⟩,
    ⟨?_, fun v => ?_, fun _ => rfl⟩, ⟨?_, fun v => ?_, fun _ => rfl⟩⟩
  · by_cases hc : i.concrete_type = B.StringType.concrete_type
    · obtain ⟨obj, _, hg⟩ := h.GetStringValue_of_eq hc
      exact ⟨fun _ => hc, fun _ => ⟨_, hg⟩⟩
    · exact ⟨fun ⟨v, hv⟩ => absurd hv (h.GetStringValue_of_ne_class hc v), fun he => absurd he hc⟩
  · by_cases hc : i.concrete_type = B.StringType.concrete_type
    · obtain ⟨obj, hp, hg⟩ := h.GetStringValue_of_eq hc
      obtain ⟨w⟩ := obj
      have hc2 : i.concrete_type = .generated h.StringDescriptor := hc
      simp [hc2, hg, hp]
    · exact ⟨fun hv => absurd hv (h.GetStringValue_of_ne_class hc v), fun he => absurd he.1 hc⟩
  · by_cases hc : i.concrete_type = B.BooleanType.concrete_type
    · obtain ⟨obj, _, hg⟩ := h.GetBooleanValue_of_eq hc
      exact ⟨fun _ => hc, fun _ => ⟨_, hg⟩⟩
    · exact ⟨fun ⟨v, hv⟩ => absurd hv (h.GetBooleanValue_of_ne_class hc v), fun he => absurd he hc⟩
  · by_cases hc : i.concrete_type = B.BooleanType.concrete_type
    · obtain ⟨obj, hp, hg⟩ := h.GetBooleanValue_of_eq hc
      obtain ⟨w⟩ := obj
      have hc2 : i.concrete_type = .generated h.BooleanDescriptor := hc
      simp [hc2, hg, hp]
    · exact ⟨fun hv => absurd hv (h.GetBooleanValue_of_ne_class hc v), fun he => absurd he.1 hc⟩
  · by_cases hc : i.concrete_type = B.IntegerType.concrete_type
    · obtain ⟨obj, _, hg⟩ := h.GetIntegerValue_of_eq hc
      exact ⟨fun _ => hc, fun _ => ⟨_, hg⟩⟩
    · exact ⟨fun ⟨v, hv⟩ => absurd hv (h.GetIntegerValue_of_ne_class hc v), fun he => absurd he hc⟩
  · by_cases hc : i.concrete_type = B.IntegerType.concrete_type
    · obtain ⟨obj, hp, hg⟩ := h.GetIntegerValue_of_eq hc
      obtain ⟨w⟩ := obj
      have hc2 : i.concrete_type = .generated h.IntegerDescriptor := hc
      simp [hc2, hg, hp]
    · exact ⟨fun hv => absurd hv (h.GetIntegerValue_of_ne_class hc v), fun he => absurd he.1 hc⟩
  · by_cases hc : i.concrete_type = B.DecimalType.concrete_type
    · obtain ⟨obj, _, hg⟩ := h.GetDecimalValue_of_eq hc
      exact ⟨fun _ => hc, fun _ => ⟨_, hg⟩⟩
    · exact ⟨fun ⟨v, hv⟩ => absurd hv (h.GetDecimalValue_of_ne_class hc v), fun he => absurd he hc⟩
  · by_cases hc : i.concrete_type = B.DecimalType.concrete_type
    · obtain ⟨obj, hp, hg⟩ := h.GetDecimalValue_of_eq hc
      obtain ⟨w⟩ := obj
      have hc2 : i.concrete_type = .generated h.DecimalDescriptor := hc
      simp [hc2, hg, hp]
    · exact ⟨fun hv => absurd hv (h.GetDecimalValue_of_ne_class hc v), fun he => absurd he.1 hc⟩

/-- C9, at concrete inputs: the STU3 Integer instance holding 42 is of the Integer class
of the STU3 binding, so the integer getter of the STU3 handler returns a value, and it
is not of the String class, so the string getter returns none.  The `DynamicMessage`
built for the descriptor of the R4 class String is not of that class, so the string
getter of the R4 handler returns no value for it. -/
theorem getter_success_iff_witness :
    (∃ v, testdata.stu3_handler.GetIntegerValue testdata.stu3_integer_42 = .returns (.value v)) ∧
    ¬ (∃ v, testdata.stu3_handler.GetStringValue testdata.stu3_integer_42 = .returns (.value v)) ∧
    (testdata.r4_dynamic_string.GetDescriptor = testdata.r4_handler.StringDescriptor ∧
      ¬ (∃ v, testdata.r4_handler.GetStringValue testdata.r4_dynamic_string =
        .returns (.value v))) :=
  ⟨(getter_success_iff testdata.stu3_handler testdata.stu3_integer_42).2.2.1.1.mpr rfl,
   fun hex => absurd
    ((getter_success_iff testdata.stu3_handler testdata.stu3_integer_42).1.1.mp hex)
    (by decide),
   rfl,
   fun hex => absurd
    ((getter_success_iff testdata.r4_handler testdata.r4_dynamic_string).1.1.mp hex)
    (by decide)⟩

/-! ## The version check -/

/-- C3 does not hold for the getters, which check the type and not the version.  The
handler of the mixed binding is bound to R4 and its string getter returns the value of
an STU3 String instance.  The R4 handler rejects the STU3 Integer instance holding 42
with the INVALID_ARGUMENT status of the type check, while the version check of that
handler answers the same instance with the version failure. -/
theorem getter_skips_version_check :
    (GetFhirVersion (testdata.mixed_handler.NewString "x").GetDescriptor ≠
        testdata.mixed_handler.version_ ∧
      testdata.mixed_handler.GetStringValue (testdata.mixed_handler.NewString "x") =
        .returns (.value "x")) ∧
    (GetFhirVersion testdata.stu3_integer_42.GetDescriptor ≠ testdata.r4_handler.version_ ∧
      testdata.r4_handler.GetStringValue testdata.stu3_integer_42 =
        .returns (.status ⟨.INVALID_ARGUMENT, "Tried to get google.fhir.r4.core.String value, " ++
          "but message was of type google.fhir.stu3.proto.Integer"⟩) ∧
      (testdata.r4_handler.CheckVersion testdata.stu3_integer_42).code = .VERSION_MISMATCH) := by
  refine ⟨⟨by decide, by decide⟩, by decide, ?_, by decide⟩
  decide

/-- C3, amended: for an instance of another version than the one the handler is bound
to, ParseInto, WrapPrimitiveProto and ValidatePrimitive fail with the version failure of
CheckVersion, leave the target as it is and perform no delegation, whatever the wrapper
factory would answer.  A getter performs the type check instead: when the representation
class of its kind belongs to the bound version, it rejects the instance with the
INVALID_ARGUMENT status of CheckType. -/
theorem version_mismatch_handling (h : PrimitiveHandlerTemplate B) (i : Message)
    (hv : GetFhirVersion i.GetDescriptor ≠ h.version_) :
    (h.CheckVersion i).code = .VERSION_MISMATCH ∧
    (∀ (json : String) (tz : Option TimeZone),
      (h.ParseInto json tz i).result = (h.CheckVersion i, i) ∧
      (h.ParseInto json tz i).delegations = []) ∧
    ((h.WrapPrimitiveProto i).result = .status (h.CheckVersion i) ∧
      (h.WrapPrimitiveProto i).delegations = []) ∧
    ((h.ValidatePrimitive i).result = h.CheckVersion i ∧
      (h.ValidatePrimitive i).delegations = []) ∧
    (GetFhirVersion h.StringDescriptor = h.version_ →
      h.GetStringValue i = .returns (.status (CheckType h.StringDescriptor i)) ∧
      (CheckType h.StringDescriptor i).code = .INVALID_ARGUMENT) ∧
    (GetFhirVersion h.BooleanDescriptor = h.version_ →
      h.GetBooleanValue i = .returns (.status (CheckType h.BooleanDescriptor i)) ∧
      (CheckType h.BooleanDescriptor i).code = .INVALID_ARGUMENT) ∧
    (GetFhirVersion h.IntegerDescriptor = h.version_ →
      h.GetIntegerValue i = .returns (.status (CheckType h.IntegerDescriptor i)) ∧
      (CheckType h.IntegerDescriptor i).code = .INVALID_ARGUMENT) ∧
    (GetFhirVersion h.DecimalDescriptor = h.version_ →
      h.GetDecimalValue i = .returns (.status (CheckType h.DecimalDescriptor i)) ∧
      (CheckType h.DecimalDescriptor i).code = .INVALID_ARGUMENT) := by
  have hc : h.CheckVersion i = ⟨.VERSION_MISMATCH, ""⟩ := by
    simp [PrimitiveHandler.CheckVersion, PrimitiveHandler.CheckVersionOfDescriptor, hv]
  have hok : (h.CheckVersion i).ok = false := by simp [hc, Status.ok]
  have key : ∀ d : Descriptor, GetFhirVersion d = h.version_ → i.GetDescriptor ≠ d :=
    fun d hd he => hv (he ▸ hd)
  refine ⟨by rw [hc], fun json tz => ⟨?_, ?_⟩, ⟨?_, ?_⟩, ⟨?_, ?_⟩,
    fun hd => ?_, fun hd => ?_, fun hd => ?_, fun hd => ?_⟩
  · simp [PrimitiveHandler.ParseInto, hok]
  · simp [PrimitiveHandler.ParseInto, hok]
  · simp [PrimitiveHandler.WrapPrimitiveProto, hok]
  · simp [PrimitiveHandler.WrapPrimitiveProto, hok]
  · simp [PrimitiveHandler.ValidatePrimitive, hok]
  · simp [PrimitiveHandler.ValidatePrimitive, hok]
  · have hne := key _ hd
    exact ⟨by rw [h.GetStringValue_of_ne hne]; exact congrArg _ (congrArg _ (CheckType_of_ne hne).symm),
      by rw [CheckType_of_ne hne]; rfl⟩
  · have hne := key _ hd
    exact ⟨by rw [h.GetBooleanValue_of_ne hne]; exact congrArg _ (congrArg _ (CheckType_of_ne hne).symm),
      by rw [CheckType_of_ne hne]; rfl⟩
  · have hne := key _ hd
    exact ⟨by rw [h.GetIntegerValue_of_ne hne]; exact congrArg _ (congrArg _ (CheckType_of_ne hne).symm),
      by rw [CheckType_of_ne hne]; rfl⟩
  · have hne := key _ hd
    exact ⟨by rw [h.GetDecimalValue_of_ne hne]; exact congrArg _ (congrArg _ (CheckType_of_ne hne).symm),
      by rw [CheckType_of_ne hne]; rfl⟩

/-- C3 amended, at a concrete input: the R4 handler, whose four representation classes
are R4 classes, given the STU3 Integer instance holding 42. -/
theorem version_mismatch_handling_witness :
    GetFhirVersion testdata.stu3_integer_42.GetDescriptor ≠ testdata.r4_handler.version_ ∧
    (testdata.r4_handler.CheckVersion testdata.stu3_integer_42).code = .VERSION_MISMATCH ∧
    (testdata.r4_handler.ValidatePrimitive testdata.stu3_integer_42).delegations = [] ∧
    (testdata.r4_handler.GetStringValue testdata.stu3_integer_42 =
        .returns (.status (CheckType testdata.r4_handler.StringDescriptor
          testdata.stu3_integer_42)) ∧
      (CheckType testdata.r4_handler.StringDescriptor testdata.stu3_integer_42).code =
        .INVALID_ARGUMENT) ∧
    (testdata.r4_handler.GetIntegerValue testdata.stu3_integer_42 =
        .returns (.status (CheckType testdata.r4_handler.IntegerDescriptor
          testdata.stu3_integer_42)) ∧
      (CheckType testdata.r4_handler.IntegerDescriptor testdata.stu3_integer_42).code =
        .INVALID_ARGUMENT) :=
  ⟨by decide,
   (version_mismatch_handling testdata.r4_handler testdata.stu3_integer_42 (by decide)).1,
   (version_mismatch_handling testdata.r4_handler testdata.stu3_integer_42
    (by decide)).2.2.2.1.2,
   (version_mismatch_handling testdata.r4_handler testdata.stu3_integer_42
    (by decide)).2.2.2.2.1 rfl,
   (version_mismatch_handling testdata.r4_handler testdata.stu3_integer_42
    (by decide)).2.2.2.2.2.2.1 rfl⟩

end PrimitiveHandlerTemplate

/-- C5: `is_non_null` is false exactly when the value text is the four-character text
"null"; it is true for every other text, the empty text and "false" included, and the
element plays no part. -/
theorem is_non_null_iff (p : JsonPrimitive) :
    (p.is_non_null = false ↔ p.value = "null") ∧
    (p.is_non_null = true ↔ p.value ≠ "null") ∧
    "null".length = 4 ∧
    (∀ e : Option Message, JsonPrimitive.is_non_null ⟨"", e⟩ = true ∧
      JsonPrimitive.is_non_null ⟨"false", e⟩ = true ∧
      JsonPrimitive.is_non_null ⟨"null", e⟩ = false) ∧
    (∀ e : Option Message, JsonPrimitive.is_non_null ⟨p.value, e⟩ = p.is_non_null) := by
  refine ⟨?_, ?_, by decide, fun e => ⟨?_, ?_, ?_⟩, fun e => rfl⟩ <;>
    simp [JsonPrimitive.is_non_null]

end google.fhir
